import Mathlib

/-!
Shallow embedding of the PuppyGraph MCP server dual-backend orchestrator core
(src/services/puppygraph.ts, src/clients/neo4j.ts, src/clients/gremlin.ts,
src/utils/schema.ts).  Backend effects (driver connections, query evaluation,
HTTP requests, wall clocks) are passed in as explicit oracle values; every
function of the source becomes a pure Lean function over those oracles, and
the list of backend calls actually issued is returned alongside each result so
that "no backend call was made" is a provable statement.
-/

namespace PuppyGraph

/-- Universe of JavaScript values flowing through the service, including the
driver-specific wrapper shapes that the Neo4j client function `convertValue`
recognises: `int64` is the neo4j-driver lossless Integer wrapper (`isInt`),
`node`/`rel`/`path` are the driver types `types.Node`/`types.Relationship`/
`types.Path` instances; `undef` is JavaScript `undefined`, kept distinct from
`vnull` (JavaScript `null`). -/
inductive GValue where
  | vnull
  | undef
  | num (n : Int)
  | str (s : String)
  | bool (b : Bool)
  | arr (xs : List GValue)
  | obj (fields : List (String × GValue))
  | int64 (n : Int)
  | node (identity : GValue) (labels : List String) (props : List (String × GValue))
  | rel (identity : GValue) (rtype : String) (startId endId : GValue) (props : List (String × GValue))
  | path (segments : List (GValue × GValue × GValue))

mutual

/-- `Neo4jClient.convertValue` (src/clients/neo4j.ts:107-153): null/undefined
pass through, the wide-integer wrapper narrows to a number, Node/Relationship/
Path become plain objects with recursively converted fields, arrays convert
element-wise, remaining objects convert via `convertProperties`, scalars pass
through. -/
def convertValue : GValue → GValue
  | .vnull => .vnull
  | .undef => .undef
  | .int64 n => .num n
  | .node identity labels props =>
      .obj [("id", convertValue identity),
            ("labels", .arr (labels.map GValue.str)),
            ("properties", .obj (convertProperties props))]
  | .rel identity rtype startId endId props =>
      .obj [("id", convertValue identity),
            ("type", .str rtype),
            ("startNodeId", convertValue startId),
            ("endNodeId", convertValue endId),
            ("properties", .obj (convertProperties props))]
  | .path segments => .obj [("segments", .arr (convertSegments segments))]
  | .arr xs => .arr (convertList xs)
  | .obj fields => .obj (convertProperties fields)
  | .num n => .num n
  | .str s => .str s
  | .bool b => .bool b

/-- Element-wise conversion of an array (`value.map(item => convertValue(item))`). -/
def convertList : List GValue → List GValue
  | [] => []
  | x :: xs => convertValue x :: convertList xs

/-- `Neo4jClient.convertProperties` (src/clients/neo4j.ts:155-163): convert
each property value, keys preserved verbatim. -/
def convertProperties : List (String × GValue) → List (String × GValue)
  | [] => []
  | p :: ps => (p.1, convertValue p.2) :: convertProperties ps

/-- Conversion of the segments of a Path: each becomes
`{start, relationship, end}` with the three fields recursively converted. -/
def convertSegments : List (GValue × GValue × GValue) → List GValue
  | [] => []
  | s :: ss =>
      .obj [("start", convertValue s.1),
            ("relationship", convertValue s.2.1),
            ("end", convertValue s.2.2)] :: convertSegments ss

end

mutual

/-- A value is plain when it is built only from null, numbers, strings,
booleans, arrays and plain string-keyed mappings (no driver wrappers, no
`undefined`). -/
def isPlain : GValue → Bool
  | .vnull => true
  | .num _ => true
  | .str _ => true
  | .bool _ => true
  | .arr xs => isPlainList xs
  | .obj fields => isPlainFields fields
  | _ => false

def isPlainList : List GValue → Bool
  | [] => true
  | x :: xs => isPlain x && isPlainList xs

def isPlainFields : List (String × GValue) → Bool
  | [] => true
  | p :: ps => isPlain p.2 && isPlainFields ps

end

mutual

theorem convertValue_of_isPlain : ∀ x : GValue, isPlain x = true → convertValue x = x
  | .vnull, _ => rfl
  | .num _, _ => rfl
  | .str _, _ => rfl
  | .bool _, _ => rfl
  | .arr xs, h => by
      simp only [convertValue]
      exact congrArg GValue.arr (convertList_of_isPlain xs (by simpa [isPlain] using h))
  | .obj fields, h => by
      simp only [convertValue]
      exact congrArg GValue.obj (convertProperties_of_isPlain fields (by simpa [isPlain] using h))

theorem convertList_of_isPlain : ∀ xs : List GValue, isPlainList xs = true → convertList xs = xs
  | [], _ => rfl
  | x :: xs, h => by
      simp only [isPlainList, Bool.and_eq_true] at h
      simp only [convertList]
      rw [convertValue_of_isPlain x h.1, convertList_of_isPlain xs h.2]

theorem convertProperties_of_isPlain :
    ∀ ps : List (String × GValue), isPlainFields ps = true → convertProperties ps = ps
  | [], _ => rfl
  | p :: ps, h => by
      simp only [isPlainFields, Bool.and_eq_true] at h
      simp only [convertProperties]
      rw [convertValue_of_isPlain p.2 h.1, convertProperties_of_isPlain ps h.2]

end

/-! ### String helpers mirroring the JavaScript primitives used by the source -/

/-- Does `pat` occur at the head of `s` (character-wise)? -/
def prefixMatches : List Char → List Char → Bool
  | [], _ => true
  | _ :: _, [] => false
  | a :: as, b :: bs => a == b && prefixMatches as bs

/-- Does `pat` occur anywhere in `s`? -/
def subOccurs (pat : List Char) : List Char → Bool
  | [] => pat.isEmpty
  | s :: rest => prefixMatches pat (s :: rest) || subOccurs pat rest

/-- JavaScript `s.includes(pat)`. -/
def containsSubstr (s pat : String) : Bool := subOccurs pat.data s.data

/-- JavaScript whitespace for `trim` (the subset relevant to query strings). -/
def isJsWhitespace (c : Char) : Bool := c == ' ' || c == '\t' || c == '\n' || c == '\r'

/-- JavaScript `s.trim()`. -/
def jsTrim (s : String) : List Char :=
  ((s.data.dropWhile isJsWhitespace).reverse.dropWhile isJsWhitespace).reverse

/-- `query.trim().startsWith("g.")` (src/clients/gremlin.ts:129,155). -/
def startsWithGDot (q : String) : Bool := prefixMatches ['g', '.'] (jsTrim q)

/-- JavaScript `s || dflt` for strings: the empty string is falsy. -/
def jsStringOr (s dflt : String) : String := if s.data.isEmpty then dflt else s

/-- JavaScript `x || ""` for a nullable string. -/
def jsOrEmpty : Option String → String
  | none => ""
  | some s => jsStringOr s ""

/-- JavaScript string concatenation with a nullable right operand:
`"prefix" + x` renders `null` as the text "null". -/
def jsNullStr : Option String → String
  | none => "null"
  | some s => s

/-! ### Script Safety Filter (src/clients/gremlin.ts:131-134 and 157-160) -/

/-- The denylist substring check run on `g.`-prefixed traversal scripts:
`query.includes("System.") || query.includes("java.") ||
 query.includes("eval(") || query.includes("constructor")`. -/
def isUnsafeGremlin (q : String) : Bool :=
  containsSubstr q "System." || containsSubstr q "java." ||
  containsSubstr q "eval(" || containsSubstr q "constructor"

/-! ### Protocol Connection states and backend oracles -/

/-- The access pattern stored in `GremlinClient.client`:
`graphHandle` has a live traversal `g` (structure.Graph approach),
`submitHandle` has a script-submission `_client`, `bareHandle` has neither
(execution then depends on `gremlin.process.traversal` being available). -/
inductive GremlinHandle where
  | graphHandle
  | submitHandle
  | bareHandle
deriving DecidableEq

/-- `Neo4jClient` private state: `connected`, the driver handle, and the last
recorded connection error. -/
structure Neo4jState where
  connected : Bool
  hasDriver : Bool
  connectionError : Option String

/-- `GremlinClient` private state. -/
structure GremlinState where
  connected : Bool
  client : Option GremlinHandle
  connectionError : Option String

/-- One backend round-trip issued by the service; execution functions return
the list of calls they made, so "no backend call" is provable. -/
inductive BackendCall where
  | neo4jConnectAttempt
  | neo4jQuery (q : String)
  | gremlinConnectAttempt
  | gremlinEval (q : String)
  | gremlinSubmit (q : String)
deriving DecidableEq

/-- Oracle for the Gremlin driver: result of evaluating a `g.`-script against
the live traversal (`new Function("g", ...)(g).toList()`), of `client.submit`,
and of the process-traversal evaluation. -/
structure GremlinBackend where
  evalTraversal : String → Except String (List GValue)
  submit : String → Except String (List GValue)
  processEval : String → Except String (List GValue)

namespace Neo4jClient

/-- `Neo4jClient.connect` (src/clients/neo4j.ts:20-40).  The oracle stands for
`createDriver` + `verifyConnection`; the driver object is assigned before
verification, so `hasDriver` becomes true either way.  Never throws: the whole
body is wrapped in try/catch.  Note that the stored `connectionError` is NOT
cleared on success. -/
def connect (st : Neo4jState) (outcome : Except String Unit) : Neo4jState × Bool :=
  match outcome with
  | .ok _ => ({ st with connected := true, hasDriver := true }, true)
  | .error msg =>
      ({ st with hasDriver := true, connectionError := some msg, connected := false }, false)

/-- `Neo4jClient.isConnected`. -/
def isConnected (st : Neo4jState) : Bool := st.connected

/-- `Neo4jClient.getConnectionError`. -/
def getConnectionError (st : Neo4jState) : Option String := st.connectionError

/-- `Neo4jClient.executeQuery` (src/clients/neo4j.ts:79-105): guard on
`!this.connected || !this.driver`, then run the query (oracle `records`, one
row as a list of string-keyed fields) and map every field value through
`convertValue`. -/
def executeQuery (st : Neo4jState) (records : Except String (List (List (String × GValue))))
    (q : String) : Except String (List GValue) × List BackendCall :=
  if !st.connected || !st.hasDriver then (.error "Not connected to Neo4j endpoint", [])
  else
    match records with
    | .ok recs =>
        (.ok (recs.map fun r => .obj (r.map fun kv => (kv.1, convertValue kv.2))),
         [.neo4jQuery q])
    | .error e => (.error e, [.neo4jQuery q])

end Neo4jClient

namespace GremlinClient

/-- `GremlinClient.connect` (src/clients/gremlin.ts:19-107).  The oracle says
which access pattern was established (or the failure message of the final
throw/catch).  On failure the recorded message is `error.message || "Unknown error"`, `connected` becomes false and the stale `client` is left in place; on
success the handle is stored and `connected` set — the stored
`connectionError` is NOT cleared. -/
def connect (st : GremlinState) (outcome : Except String GremlinHandle) :
    GremlinState × Bool :=
  match outcome with
  | .ok h => ({ st with connected := true, client := some h }, true)
  | .error msg =>
      ({ st with connectionError := some (jsStringOr msg "Unknown error"),
                 connected := false }, false)

/-- `GremlinClient.isConnected`. -/
def isConnected (st : GremlinState) : Bool := st.connected

/-- `GremlinClient.getConnectionError`. -/
def getConnectionError (st : GremlinState) : Option String := st.connectionError

/-- `GremlinClient.executeQuery` (src/clients/gremlin.ts:117-172): guard on
`!this.connected || !this.client`, then dispatch on the stored handle.  The
graph-traversal and process-traversal paths require the `g.` prefix and run
the safety denylist before evaluating; the direct-client path submits the raw
script.  Result items are returned exactly as the driver produced them. -/
def executeQuery (st : GremlinState) (be : GremlinBackend) (processAvail : Bool)
    (query : String) : Except String (List GValue) × List BackendCall :=
  match st.connected, st.client with
  | true, some .graphHandle =>
      if startsWithGDot query then
        if isUnsafeGremlin query then
          (.error "Potentially unsafe Gremlin query rejected", [])
        else
          match be.evalTraversal query with
          | .ok items => (.ok items, [.gremlinEval query])
          | .error e => (.error e, [.gremlinEval query])
      else (.error "Query does not start with g. - cannot execute as traversal", [])
  | true, some .submitHandle =>
      match be.submit query with
      | .ok items => (.ok items, [.gremlinSubmit query])
      | .error e => (.error e, [.gremlinSubmit query])
  | true, some .bareHandle =>
      if processAvail then
        if startsWithGDot query then
          if isUnsafeGremlin query then
            (.error "Potentially unsafe Gremlin query rejected", [])
          else
            match be.processEval query with
            | .ok items => (.ok items, [.gremlinEval query])
            | .error e => (.error e, [.gremlinEval query])
        else (.error "Query does not start with g. - cannot execute as traversal", [])
      else (.error "No valid Gremlin execution method available", [])
  | _, _ => (.error "Not connected to Gremlin endpoint", [])

end GremlinClient

/-! ### QueryResult and the sample responses (src/utils/types.ts) -/

/-- `QueryResult.metadata` (src/utils/types.ts): the code under study only
ever fills `execution_time` and `row_count` (plus the note field of the sample data);
`error`/`error_type` exist in the interface but are never set here. -/
structure QueryMetadata where
  execution_time : Int
  row_count : Nat
  note : Option String := none
  error : Option String := none
  error_type : Option String := none

/-- `QueryResult` (src/utils/types.ts). -/
structure QueryResult where
  data : List GValue
  metadata : QueryMetadata

/-- `SAMPLE_RESPONSES.gremlin.data`. -/
def sampleGremlinData : List GValue :=
  [ .obj [("id", .num 1), ("label", .str "vertex"),
          ("properties", .obj [("name", .arr [.str "Alice"]),
                               ("type", .arr [.str "user"]),
                               ("created_at", .arr [.num 1648756234])])],
    .obj [("id", .num 2), ("label", .str "vertex"),
          ("properties", .obj [("name", .arr [.str "Bob"]),
                               ("type", .arr [.str "user"]),
                               ("created_at", .arr [.num 1648766543])])] ]

/-- `SAMPLE_RESPONSES.gremlin`. -/
def sampleGremlinResult : QueryResult :=
  { data := sampleGremlinData,
    metadata := { execution_time := 42, row_count := 2,
                  note := some "Sample data - actual schema may vary" } }

/-- `SAMPLE_RESPONSES.cypher.data`. -/
def sampleCypherData : List GValue :=
  [ .obj [("n", .obj [("id", .num 1), ("labels", .arr [.str "Node"]),
                      ("properties", .obj [("uuid", .str "n-001"),
                                           ("created_at", .str "2023-01-15T12:00:00Z")])])],
    .obj [("n", .obj [("id", .num 2), ("labels", .arr [.str "Node"]),
                      ("properties", .obj [("uuid", .str "n-002"),
                                           ("created_at", .str "2023-01-16T14:30:00Z")])])] ]

/-- `SAMPLE_RESPONSES.cypher`. -/
def sampleCypherResult : QueryResult :=
  { data := sampleCypherData,
    metadata := { execution_time := 38, row_count := 2,
                  note := some "Sample data - actual schema may vary" } }

/-! ### Schema Fetcher (src/utils/schema.ts) -/

/-- The HTTP response seen by `fetch` (parsed body as the JSON value). -/
structure HttpResp where
  ok : Bool
  status : Nat
  body : GValue

/-- Field lookup on a plain object value. -/
def getField (v : GValue) (key : String) : Option GValue :=
  match v with
  | .obj fields => (fields.find? fun p => p.1 == key).map (·.2)
  | _ => none

/-- `fetchSchemaFromEndpoint` (src/utils/schema.ts:7-38): network-level
failure re-thrown; a non-ok status throws `HTTP error! Status: <n>`; a
success wraps the body with `source: "Schema API"`, the endpoint URL and a
timestamp (oracle `now`). -/
def fetchSchemaFromEndpoint (resp : Except String HttpResp) (url now : String) :
    Except String GValue :=
  match resp with
  | .error e => .error e
  | .ok r =>
      if !r.ok then .error ("HTTP error! Status: " ++ toString r.status)
      else
        .ok (.obj [("summary", .str "PuppyGraph Schema Information"),
                   ("source", .str "Schema API"),
                   ("schema", r.body),
                   ("schema_endpoint", .str url),
                   ("timestamp", .str now)])

/-- Oracle for the four schema probes of `GremlinClient.getSchemaData`
(vertex count, edge count, vertex-label group counts, edge-label group
counts). -/
structure SchemaProbes where
  nodeCount : GValue
  edgeCount : GValue
  nodeLabelCounts : List (String × Int)
  edgeLabelCounts : List (String × Int)

namespace GremlinClient

/-- `GremlinClient.getSchemaData` (src/clients/gremlin.ts:174-283): guard on
`!this.connected || !this.client`; every available access pattern issues the
same four probes and assembles the same envelope tagged
`source: "Gremlin Database Queries"`; a bare handle with no process-traversal
factory has no execution method. -/
def getSchemaData (st : GremlinState) (probes : Except String SchemaProbes)
    (processAvail : Bool) : Except String GValue :=
  match st.connected, st.client with
  | true, some h =>
      if h = .bareHandle && !processAvail then
        .error "No valid Gremlin execution method available for schema queries"
      else
        match probes with
        | .error e => .error e
        | .ok p =>
            .ok (.obj [("summary", .str "Graph Structure Information"),
                       ("source", .str "Gremlin Database Queries"),
                       ("totalNodes", p.nodeCount),
                       ("totalRelationships", p.edgeCount),
                       ("nodeLabels", .arr (p.nodeLabelCounts.map fun lc =>
                          .obj [("label", .str lc.1), ("count", .num lc.2)])),
                       ("relationshipTypes", .arr (p.edgeLabelCounts.map fun tc =>
                          .obj [("type", .str tc.1), ("count", .num tc.2)])),
                       ("graphType", .str "PuppyGraph SQL-to-Graph Bridge")])
  | _, _ => .error "Gremlin client not initialized"

end GremlinClient

/-! ### Execution Orchestrator (src/services/puppygraph.ts) -/

/-- `PuppyGraphService` private state: the two client states plus the last
aggregated connection error string. -/
structure ServiceState where
  neo4j : Neo4jState
  gremlin : GremlinState
  connectionError : Option String

/-- The aggregation performed by `updateConnectionError`
(src/services/puppygraph.ts:44-57); JavaScript truthiness makes an empty
string count as absent. -/
def aggregateError (n g : Option String) : Option String :=
  match n, g with
  | some e1, some e2 =>
      if e1.data.isEmpty then
        if e2.data.isEmpty then none else some ("Gremlin: " ++ e2)
      else if e2.data.isEmpty then some ("Neo4j: " ++ e1)
      else some ("Neo4j: " ++ e1 ++ " | Gremlin: " ++ e2)
  | some e1, none => if e1.data.isEmpty then none else some ("Neo4j: " ++ e1)
  | none, some e2 => if e2.data.isEmpty then none else some ("Gremlin: " ++ e2)
  | none, none => none

/-- `PuppyGraphService.updateConnectionError`. -/
def updateConnectionError (s : ServiceState) : ServiceState :=
  { s with connectionError :=
      aggregateError s.neo4j.connectionError s.gremlin.connectionError }

/-- `ConnectionStatus`, the return shape of `getConnectionStatus`. -/
structure ConnectionStatus where
  connected : Bool
  neo4jConnected : Bool
  gremlinConnected : Bool
  connectionError : Option String
  fallbackMode : Bool

/-- `PuppyGraphService.getConnectionStatus` (src/services/puppygraph.ts:223-240). -/
def getConnectionStatus (s : ServiceState) : ConnectionStatus :=
  { connected := s.neo4j.connected || s.gremlin.connected,
    neo4jConnected := s.neo4j.connected,
    gremlinConnected := s.gremlin.connected,
    connectionError := s.connectionError,
    fallbackMode := false }

/-- `PuppyGraphService.executeGremlinFallback`
(src/services/puppygraph.ts:101-112): a query containing "error" throws a
simulated error, otherwise the synthetic sample response is returned. -/
def executeGremlinFallback (q : String) : Except String QueryResult :=
  if containsSubstr q "error" then .error "Simulated Gremlin query error"
  else .ok sampleGremlinResult

/-- `PuppyGraphService.executeCypherFallback`
(src/services/puppygraph.ts:156-167). -/
def executeCypherFallback (q : String) : Except String QueryResult :=
  if containsSubstr q "error" then .error "Simulated Cypher query error"
  else .ok sampleCypherResult

/-- Oracles for one `executeGremlin` request: the connect outcome used if a
reconnect is attempted, the query backend, the process-traversal
availability flag, and the measured wall-clock duration. -/
structure GremlinRunEnv where
  connectOutcome : Except String GremlinHandle
  backend : GremlinBackend
  processAvail : Bool
  elapsed : Int

/-- Wrapping of a client-level Gremlin outcome into the `QueryResult`
envelope (src/services/puppygraph.ts:82-98): success records
`row_count: result.length`; failure is re-thrown wrapped. -/
def wrapGremlinResult (elapsed : Int) : Except String (List GValue) → Except String QueryResult
  | .ok items => .ok { data := items, metadata := { execution_time := elapsed, row_count := items.length } }
  | .error msg => .error ("Error executing Gremlin query: " ++ msg)

/-- `PuppyGraphService.executeGremlin` (src/services/puppygraph.ts:59-99):
a query containing "test" short-circuits to the sample-data fallback; else
at most one reconnect is attempted when disconnected (failing with the
not-connected error carrying `this.connectionError || ""`), and otherwise the
query is delegated to `GremlinClient.executeQuery`. -/
def executeGremlin (s : ServiceState) (env : GremlinRunEnv) (query : String) :
    Except String QueryResult × ServiceState × List BackendCall :=
  if containsSubstr query "test" then (executeGremlinFallback query, s, [])
  else if s.gremlin.connected then
    let out := GremlinClient.executeQuery s.gremlin env.backend env.processAvail query
    (wrapGremlinResult env.elapsed out.1, s, out.2)
  else
    let c := GremlinClient.connect s.gremlin env.connectOutcome
    let s1 := updateConnectionError { s with gremlin := c.1 }
    if c.2 then
      let out := GremlinClient.executeQuery s1.gremlin env.backend env.processAvail query
      (wrapGremlinResult env.elapsed out.1, s1, .gremlinConnectAttempt :: out.2)
    else
      (.error ("Cannot execute Gremlin query: Not connected to Gremlin endpoint. " ++
          jsOrEmpty s1.connectionError), s1, [.gremlinConnectAttempt])

/-- Oracles for one `executeCypher` request. -/
structure CypherRunEnv where
  connectOutcome : Except String Unit
  records : Except String (List (List (String × GValue)))
  elapsed : Int

/-- Wrapping of a client-level Cypher outcome into the `QueryResult`
envelope (src/services/puppygraph.ts:137-153). -/
def wrapCypherResult (elapsed : Int) : Except String (List GValue) → Except String QueryResult
  | .ok items => .ok { data := items, metadata := { execution_time := elapsed, row_count := items.length } }
  | .error msg => .error ("Error executing Cypher query: " ++ msg)

/-- `PuppyGraphService.executeCypher` (src/services/puppygraph.ts:114-154),
symmetric to `executeGremlin` against the Neo4j client. -/
def executeCypher (s : ServiceState) (env : CypherRunEnv) (query : String) :
    Except String QueryResult × ServiceState × List BackendCall :=
  if containsSubstr query "test" then (executeCypherFallback query, s, [])
  else if s.neo4j.connected then
    let out := Neo4jClient.executeQuery s.neo4j env.records query
    (wrapCypherResult env.elapsed out.1, s, out.2)
  else
    let c := Neo4jClient.connect s.neo4j env.connectOutcome
    let s1 := updateConnectionError { s with neo4j := c.1 }
    if c.2 then
      let out := Neo4jClient.executeQuery s1.neo4j env.records query
      (wrapCypherResult env.elapsed out.1, s1, .neo4jConnectAttempt :: out.2)
    else
      (.error ("Cannot execute Cypher query: Not connected to Neo4j endpoint. " ++
          jsOrEmpty s1.connectionError), s1, [.neo4jConnectAttempt])

/-- Oracles for one `getDataSources` request: the schema-endpoint response,
the two connect outcomes used if reconnects are attempted, the records of the Neo4j count
query, and the Gremlin schema probes. -/
structure SchemaEnv where
  schemaResp : Except String HttpResp
  schemaUrl : String
  now : String
  neo4jConnectOutcome : Except String Unit
  neo4jRecords : Except String (List (List (String × GValue)))
  gremlinConnectOutcome : Except String GremlinHandle
  gremlinProbes : Except String SchemaProbes
  processAvail : Bool

/-- The Neo4j tier of `getDataSources` (src/services/puppygraph.ts:209-220):
run `MATCH (n) RETURN count(n) as count`, read `schemaData[0].count` (an
empty record set makes the indexing throw, caught by the surrounding try),
and return the degraded envelope with `nodeCount` and `timestamp`. -/
def neo4jSchemaTier (s : ServiceState) (env : SchemaEnv) :
    Except String GValue × ServiceState × List BackendCall :=
  let out := Neo4jClient.executeQuery s.neo4j env.neo4jRecords
    "MATCH (n) RETURN count(n) as count"
  match out.1 with
  | .error e =>
      (.error ("Failed to fetch database schema: " ++ jsStringOr e "Unknown error"),
       s, out.2)
  | .ok [] =>
      (.error ("Failed to fetch database schema: " ++ "Cannot read properties of undefined"),
       s, out.2)
  | .ok (r0 :: _) =>
      (.ok (.obj [("summary", .str "Graph Structure Information via Neo4j"),
                  ("nodeCount", (getField r0 "count").getD .undef),
                  ("timestamp", .str env.now)]),
       s, out.2)

/-- The Gremlin tier of `getDataSources`
(src/services/puppygraph.ts:199-204): delegate to
`GremlinClient.getSchemaData`, wrapping a failure. -/
def gremlinSchemaTier (s : ServiceState) (env : SchemaEnv) :
    Except String GValue × ServiceState × List BackendCall :=
  match GremlinClient.getSchemaData s.gremlin env.gremlinProbes env.processAvail with
  | .ok r => (.ok r, s, [])
  | .error e =>
      (.error ("Failed to fetch schema via Gremlin: " ++ jsStringOr e "Unknown error"),
       s, [])

/-- `PuppyGraphService.getDataSources` (src/services/puppygraph.ts:169-221):
try the schema endpoint; on failure ensure the Neo4j connection (at most one
reconnect) and use the Neo4j tier; if the Neo4j reconnect fails ensure the
Gremlin connection (at most one reconnect) and use the Gremlin tier; if both
reconnects fail, throw with the aggregated connection error appended. -/
def getDataSources (s : ServiceState) (env : SchemaEnv) :
    Except String GValue × ServiceState × List BackendCall :=
  match fetchSchemaFromEndpoint env.schemaResp env.schemaUrl env.now with
  | .ok r => (.ok r, s, [])
  | .error _ =>
    if s.neo4j.connected then neo4jSchemaTier s env
    else
      let c := Neo4jClient.connect s.neo4j env.neo4jConnectOutcome
      let s1 := updateConnectionError { s with neo4j := c.1 }
      if c.2 then
        let out := neo4jSchemaTier s1 env
        (out.1, out.2.1, .neo4jConnectAttempt :: out.2.2)
      else if s1.gremlin.connected then
        let out := gremlinSchemaTier s1 env
        (out.1, out.2.1, .neo4jConnectAttempt :: out.2.2)
      else
        let cg := GremlinClient.connect s1.gremlin env.gremlinConnectOutcome
        let s2 := updateConnectionError { s1 with gremlin := cg.1 }
        if cg.2 then
          let out := gremlinSchemaTier s2 env
          (out.1, out.2.1, .neo4jConnectAttempt :: .gremlinConnectAttempt :: out.2.2)
        else
          (.error ("Cannot fetch schema: Not connected to any endpoint. " ++
              jsNullStr s2.connectionError), s2,
           [.neo4jConnectAttempt, .gremlinConnectAttempt])

/-! ### Helper lemmas -/

theorem eq_empty_of_data_isEmpty {s : String} (h : s.data.isEmpty = true) : s = "" := by
  apply String.ext
  cases hd : s.data with
  | nil => rfl
  | cons a l => rw [hd] at h; simp [List.isEmpty] at h

theorem data_isEmpty_eq_false {s : String} (h : s ≠ "") : s.data.isEmpty = false := by
  cases he : s.data.isEmpty with
  | false => rfl
  | true => exact absurd (eq_empty_of_data_isEmpty he) h

theorem jsStringOr_eq_self {s : String} (d : String) (h : s ≠ "") : jsStringOr s d = s := by
  unfold jsStringOr
  rw [data_isEmpty_eq_false h]
  rfl

theorem jsOrEmpty_some (e : String) : jsOrEmpty (some e) = e := by
  unfold jsOrEmpty jsStringOr
  cases he : e.data.isEmpty with
  | true => simp [eq_empty_of_data_isEmpty he]
  | false => simp [he]

/-! ### Claim theorems -/

/-- C9: the Value Normalizer (`convertValue`) is idempotent on already-plain
values: for every value built only from null, numbers, strings, booleans,
arrays, and plain string-keyed mappings,
`normalize(normalize(x)) == normalize(x)`. -/
theorem c9_normalize_idempotent_on_plain (x : GValue) (h : isPlain x = true) :
    convertValue (convertValue x) = convertValue x := by
  rw [convertValue_of_isPlain x h, convertValue_of_isPlain x h]

theorem c9_normalize_idempotent_on_plain_witness :
    isPlain (GValue.obj [("a", .arr [.num 1, .str "s", .bool true, .vnull])]) = true ∧
    convertValue (convertValue (GValue.obj [("a", .arr [.num 1, .str "s", .bool true, .vnull])])) =
      convertValue (GValue.obj [("a", .arr [.num 1, .str "s", .bool true, .vnull])]) :=
  ⟨rfl, c9_normalize_idempotent_on_plain (GValue.obj [("a", .arr [.num 1, .str "s", .bool true, .vnull])]) rfl⟩

/-- C2 counterexample: the claim says a successful `connect()` clears the
stored last error so that `getConnectionError()` returns null afterwards.  In
the code neither client ever resets `this.connectionError`: starting from a
state holding the error "boom" from an earlier failed attempt, a successful
`Neo4jClient.connect` returns true and sets connected, yet
`getConnectionError()` still returns "boom", not null — and likewise for
`GremlinClient.connect`. -/
theorem c2_counterexample :
    (Neo4jClient.connect ⟨false, true, some "boom"⟩ (.ok ())).2 = true ∧
    (Neo4jClient.connect ⟨false, true, some "boom"⟩ (.ok ())).1.connected = true ∧
    Neo4jClient.getConnectionError (Neo4jClient.connect ⟨false, true, some "boom"⟩ (.ok ())).1 =
      some "boom" ∧
    (GremlinClient.connect ⟨false, none, some "boom"⟩ (.ok .graphHandle)).2 = true ∧
    GremlinClient.getConnectionError
        (GremlinClient.connect ⟨false, none, some "boom"⟩ (.ok .graphHandle)).1 = some "boom" :=
  ⟨rfl, rfl, rfl, rfl, rfl⟩

/-- C2 (amended): for both Protocol Connections, `connect()` never throws (it
is a total function of its outcome oracle); on any failure it records the
error message, leaves connected=false and returns false; on success it sets
connected=true and returns true — but it does NOT clear the stored last
error: `getConnectionError()` keeps returning whatever was recorded before. -/
theorem c2_connect_amended :
    (∀ (st : Neo4jState) (m : String),
      (Neo4jClient.connect st (.error m)).1.connected = false ∧
      (Neo4jClient.connect st (.error m)).1.connectionError = some m ∧
      (Neo4jClient.connect st (.error m)).2 = false) ∧
    (∀ st : Neo4jState,
      (Neo4jClient.connect st (.ok ())).1.connected = true ∧
      (Neo4jClient.connect st (.ok ())).2 = true ∧
      (Neo4jClient.connect st (.ok ())).1.connectionError = st.connectionError) ∧
    (∀ (st : GremlinState) (m : String), m ≠ "" →
      (GremlinClient.connect st (.error m)).1.connected = false ∧
      (GremlinClient.connect st (.error m)).1.connectionError = some m ∧
      (GremlinClient.connect st (.error m)).2 = false) ∧
    (∀ (st : GremlinState) (h : GremlinHandle),
      (GremlinClient.connect st (.ok h)).1.connected = true ∧
      (GremlinClient.connect st (.ok h)).2 = true ∧
      (GremlinClient.connect st (.ok h)).1.connectionError = st.connectionError) := by
  refine ⟨fun st m => ⟨rfl, rfl, rfl⟩, fun st => ⟨rfl, rfl, rfl⟩, fun st m hm => ⟨rfl, ?_, rfl⟩,
    fun st h => ⟨rfl, rfl, rfl⟩⟩
  show some (jsStringOr m "Unknown error") = some m
  rw [jsStringOr_eq_self _ hm]

theorem c2_connect_amended_witness :
    ("refused" : String) ≠ "" ∧
    (GremlinClient.connect ⟨false, none, none⟩ (.error "refused")).1.connectionError =
      some "refused" := by
  refine ⟨by decide, ?_⟩
  exact (c2_connect_amended.2.2.1 ⟨false, none, none⟩ "refused" (by decide)).2.1

/-- C3 counterexample: the claim says the Script Safety Filter runs before
backend execution in every execution path, including the direct-client submit
path.  In the code the denylist check appears only inside the two
`g.`-traversal branches; the submit branch passes the raw script to
`client.submit`.  Concretely, the flagged script
`g.V().count(); System.exit(1)` is flagged by the filter, yet a connected
submit-handle client executes it against the backend (one submit call) and
returns its result instead of the unsafe-query error. -/
theorem c3_counterexample :
    isUnsafeGremlin "g.V().count(); System.exit(1)" = true ∧
    GremlinClient.executeQuery ⟨true, some .submitHandle, none⟩
        ⟨fun _ => .ok [], fun _ => .ok [.num 1], fun _ => .ok []⟩ true
        "g.V().count(); System.exit(1)" =
      (.ok [.num 1], [.gremlinSubmit "g.V().count(); System.exit(1)"]) :=
  ⟨by decide, rfl⟩

/-- C3 (amended): for a connected traversal connection, the Script Safety
Filter runs before any backend execution in the graph-traversal path and in
the process-traversal path, rejecting a flagged `g.`-script with the
unsafe-query error and an empty backend-call trace; the direct-client submit
path performs no safety filtering and always forwards the script to the
backend in one submit call. -/
theorem c3_safety_filter_amended (st : GremlinState) (be : GremlinBackend) (pa : Bool)
    (q : String) (hc : st.connected = true) (hu : isUnsafeGremlin q = true)
    (hg : startsWithGDot q = true) :
    (st.client = some .graphHandle →
      GremlinClient.executeQuery st be pa q =
        (.error "Potentially unsafe Gremlin query rejected", [])) ∧
    (st.client = some .bareHandle → pa = true →
      GremlinClient.executeQuery st be pa q =
        (.error "Potentially unsafe Gremlin query rejected", [])) ∧
    (st.client = some .submitHandle →
      (GremlinClient.executeQuery st be pa q).2 = [.gremlinSubmit q]) := by
  obtain ⟨conn, cl, ce⟩ := st
  simp only at hc
  subst hc
  refine ⟨fun hcl => ?_, fun hcl hpa => ?_, fun hcl => ?_⟩
  · simp only at hcl
    subst hcl
    simp [GremlinClient.executeQuery, hg, hu]
  · simp only at hcl
    subst hcl hpa
    simp [GremlinClient.executeQuery, hg, hu]
  · simp only at hcl
    subst hcl
    simp only [GremlinClient.executeQuery]
    cases be.submit q <;> rfl

theorem c3_safety_filter_amended_witness :
    (⟨true, some .graphHandle, none⟩ : GremlinState).connected = true ∧
    isUnsafeGremlin "g.V().count(); System.exit(1)" = true ∧
    startsWithGDot "g.V().count(); System.exit(1)" = true ∧
    GremlinClient.executeQuery ⟨true, some .graphHandle, none⟩
        ⟨fun _ => .ok [], fun _ => .ok [], fun _ => .ok []⟩ true
        "g.V().count(); System.exit(1)" =
      (.error "Potentially unsafe Gremlin query rejected", []) := by
  refine ⟨rfl, by decide, by decide, ?_⟩
  exact (c3_safety_filter_amended ⟨true, some .graphHandle, none⟩
    ⟨fun _ => .ok [], fun _ => .ok [], fun _ => .ok []⟩ true
    "g.V().count(); System.exit(1)" rfl (by decide) (by decide)).1 rfl

/-- C4 counterexample: the claim says every item returned by a successful
`GremlinClient.executeQuery` has been passed through the Value Normalizer.
The Gremlin client applies no normalization at all (`convertValue` lives only
in the Neo4j client): with a backend producing the wide-integer wrapper
`int64 5`, a successful query returns `[int64 5]` unchanged, although the
Value Normalizer maps that list to `[num 5]`. -/
theorem c4_counterexample :
    (GremlinClient.executeQuery ⟨true, some .graphHandle, none⟩
        ⟨fun _ => .ok [.int64 5], fun _ => .ok [], fun _ => .ok []⟩ true "g.V().id()").1 =
      .ok [.int64 5] ∧
    List.map convertValue [GValue.int64 5] ≠ [GValue.int64 5] := by
  refine ⟨rfl, ?_⟩
  intro h
  simp [convertValue] at h

/-- C4 (amended): a successful `GremlinClient.executeQuery` returns the
result items exactly as the backend driver produced them — no Value
Normalizer is applied on any path: the graph-traversal path returns
the `evalTraversal` outcome verbatim and the submit path returns the `submit`
outcome verbatim. -/
theorem c4_raw_results_amended (st : GremlinState) (be : GremlinBackend) (pa : Bool)
    (q : String) (hc : st.connected = true) :
    (st.client = some .graphHandle → startsWithGDot q = true → isUnsafeGremlin q = false →
      (GremlinClient.executeQuery st be pa q).1 = be.evalTraversal q) ∧
    (st.client = some .submitHandle →
      (GremlinClient.executeQuery st be pa q).1 = be.submit q) := by
  obtain ⟨conn, cl, ce⟩ := st
  simp only at hc
  subst hc
  constructor
  · intro hcl hg hu
    simp only at hcl
    subst hcl
    simp only [GremlinClient.executeQuery, hg, hu]
    cases be.evalTraversal q <;> simp
  · intro hcl
    simp only at hcl
    subst hcl
    simp only [GremlinClient.executeQuery]
    cases be.submit q <;> rfl

theorem c4_raw_results_amended_witness :
    (⟨true, some .graphHandle, none⟩ : GremlinState).connected = true ∧
    startsWithGDot "g.V().id()" = true ∧
    isUnsafeGremlin "g.V().id()" = false ∧
    (GremlinClient.executeQuery ⟨true, some .graphHandle, none⟩
        ⟨fun _ => .ok [.int64 5], fun _ => .ok [], fun _ => .ok []⟩ true "g.V().id()").1 =
      .ok [.int64 5] := by
  refine ⟨rfl, by decide, by decide, ?_⟩
  exact (c4_raw_results_amended ⟨true, some .graphHandle, none⟩
    ⟨fun _ => .ok [.int64 5], fun _ => .ok [], fun _ => .ok []⟩ true "g.V().id()" rfl).1
    rfl (by decide) (by decide)

/-- C10: the traversal safety check is a plain substring match over the whole
script text, so on the standard (graph-traversal) execution path every
`g.`-script containing one of the denylist substrings anywhere — even inside
a harmless string-literal argument — is rejected with the unsafe-query error
and no backend call is issued. -/
theorem c10_substring_false_positive (st : GremlinState) (be : GremlinBackend) (pa : Bool)
    (q : String) (hc : st.connected = true) (hcl : st.client = some .graphHandle)
    (hg : startsWithGDot q = true)
    (hsub : containsSubstr q "System." = true ∨ containsSubstr q "java." = true ∨
            containsSubstr q "eval(" = true ∨ containsSubstr q "constructor" = true) :
    GremlinClient.executeQuery st be pa q =
      (.error "Potentially unsafe Gremlin query rejected", []) := by
  have hu : isUnsafeGremlin q = true := by
    unfold isUnsafeGremlin
    rcases hsub with h | h | h | h <;> simp [h]
  obtain ⟨conn, cl, ce⟩ := st
  simp only at hc hcl
  subst hc hcl
  simp [GremlinClient.executeQuery, hg, hu]

/-- The witness is the harmless script `g.V().has("name", "java.lang")`,
which invokes no host-language escape yet is rejected because the text
contains the substring `java.`. -/
theorem c10_substring_false_positive_witness :
    (⟨true, some .graphHandle, none⟩ : GremlinState).connected = true ∧
    startsWithGDot "g.V().has(\"name\", \"java.lang\")" = true ∧
    containsSubstr "g.V().has(\"name\", \"java.lang\")" "java." = true ∧
    GremlinClient.executeQuery ⟨true, some .graphHandle, none⟩
        ⟨fun _ => .ok [], fun _ => .ok [], fun _ => .ok []⟩ true
        "g.V().has(\"name\", \"java.lang\")" =
      (.error "Potentially unsafe Gremlin query rejected", []) := by
  refine ⟨rfl, by decide, by decide, ?_⟩
  exact c10_substring_false_positive ⟨true, some .graphHandle, none⟩
    ⟨fun _ => .ok [], fun _ => .ok [], fun _ => .ok []⟩ true
    "g.V().has(\"name\", \"java.lang\")" rfl rfl (by decide) (.inr (.inl (by decide)))

/-- On the graph-traversal path a safe `g.`-script maps to the backend
evaluation outcome with exactly one evaluation call. -/
theorem gremlinExecuteQuery_graph_eq (st : GremlinState) (be : GremlinBackend) (pa : Bool)
    (q : String) (hc : st.connected = true) (hcl : st.client = some .graphHandle)
    (hg : startsWithGDot q = true) (hu : isUnsafeGremlin q = false) :
    GremlinClient.executeQuery st be pa q = (be.evalTraversal q, [.gremlinEval q]) := by
  obtain ⟨conn, cl, ce⟩ := st
  simp only at hc hcl
  subst hc hcl
  simp only [GremlinClient.executeQuery, hg, hu]
  cases be.evalTraversal q <;> simp

/-- C1 counterexample: the claim says no input causes synthetic sample data
to be returned in place of real execution.  With both connections live and a
backend that would return `[num 7]`, the query string "test" makes
`executeGremlin` return the synthetic `SAMPLE_RESPONSES.gremlin` envelope
with an empty backend-call trace: the sample data replaces real execution. -/
theorem c1_counterexample :
    executeGremlin ⟨⟨true, true, none⟩, ⟨true, some .graphHandle, none⟩, none⟩
        ⟨.ok .graphHandle,
         ⟨fun _ => .ok [.num 7], fun _ => .ok [.num 7], fun _ => .ok [.num 7]⟩, true, 5⟩
        "test" =
      (.ok sampleGremlinResult,
       ⟨⟨true, true, none⟩, ⟨true, some .graphHandle, none⟩, none⟩, []) := rfl

/-- C1 (amended): `executeGremlin`/`executeCypher` delegate to the real
backend for every query whose text does not contain "test"; a query
containing "test" short-circuits to synthetic sample data without any
backend call (and to a simulated thrown error when it also contains
"error"). -/
theorem c1_delegation_amended :
    (∀ (s : ServiceState) (env : GremlinRunEnv) (q : String),
       containsSubstr q "test" = false → s.gremlin.connected = true →
       s.gremlin.client = some .graphHandle → startsWithGDot q = true →
       isUnsafeGremlin q = false →
       executeGremlin s env q =
         (wrapGremlinResult env.elapsed (env.backend.evalTraversal q), s, [.gremlinEval q])) ∧
    (∀ (s : ServiceState) (env : CypherRunEnv) (q : String),
       containsSubstr q "test" = false → s.neo4j.connected = true →
       executeCypher s env q =
         (wrapCypherResult env.elapsed (Neo4jClient.executeQuery s.neo4j env.records q).1, s,
          (Neo4jClient.executeQuery s.neo4j env.records q).2)) ∧
    (∀ (s : ServiceState) (env : GremlinRunEnv) (q : String),
       containsSubstr q "test" = true → containsSubstr q "error" = false →
       executeGremlin s env q = (.ok sampleGremlinResult, s, [])) ∧
    (∀ (s : ServiceState) (env : CypherRunEnv) (q : String),
       containsSubstr q "test" = true → containsSubstr q "error" = true →
       executeCypher s env q = (.error "Simulated Cypher query error", s, [])) := by
  refine ⟨?_, ?_, ?_, ?_⟩
  · intro s env q ht hgc hcl hg hu
    simp only [executeGremlin, ht, Bool.false_eq_true, if_false, hgc, if_true]
    rw [gremlinExecuteQuery_graph_eq s.gremlin env.backend env.processAvail q hgc hcl hg hu]
  · intro s env q ht hnc
    simp only [executeCypher, ht, Bool.false_eq_true, if_false, hnc, if_true]
  · intro s env q ht he
    simp only [executeGremlin, executeGremlinFallback, ht, if_true, he,
      Bool.false_eq_true, if_false]
  · intro s env q ht he
    simp only [executeCypher, executeCypherFallback, ht, if_true, he]

theorem c1_delegation_amended_witness :
    containsSubstr "g.V().limit(2)" "test" = false ∧
    executeGremlin ⟨⟨true, true, none⟩, ⟨true, some .graphHandle, none⟩, none⟩
        ⟨.ok .graphHandle,
         ⟨fun _ => .ok [.num 7], fun _ => .ok [.num 7], fun _ => .ok [.num 7]⟩, true, 5⟩
        "g.V().limit(2)" =
      (.ok { data := [.num 7], metadata := { execution_time := 5, row_count := 1 } },
       ⟨⟨true, true, none⟩, ⟨true, some .graphHandle, none⟩, none⟩, [.gremlinEval "g.V().limit(2)"]) := by
  refine ⟨by decide, ?_⟩
  exact c1_delegation_amended.1 ⟨⟨true, true, none⟩, ⟨true, some .graphHandle, none⟩, none⟩
    ⟨.ok .graphHandle,
     ⟨fun _ => .ok [.num 7], fun _ => .ok [.num 7], fun _ => .ok [.num 7]⟩, true, 5⟩
    "g.V().limit(2)" (by decide) rfl rfl (by decide) (by decide)

/-- A successful wrapped Gremlin envelope satisfies the row-count invariant. -/
theorem wrapGremlinResult_ok_row_count {t : Int} {res : Except String (List GValue)}
    {r : QueryResult} (h : wrapGremlinResult t res = .ok r) :
    r.metadata.row_count = r.data.length := by
  cases res with
  | ok items => injection h with h; subst h; rfl
  | error m => exact Except.noConfusion h

/-- A successful wrapped Cypher envelope satisfies the row-count invariant. -/
theorem wrapCypherResult_ok_row_count {t : Int} {res : Except String (List GValue)}
    {r : QueryResult} (h : wrapCypherResult t res = .ok r) :
    r.metadata.row_count = r.data.length := by
  cases res with
  | ok items => injection h with h; subst h; rfl
  | error m => exact Except.noConfusion h

/-- The Gremlin sample-data fallback satisfies the row-count invariant. -/
theorem executeGremlinFallback_ok_row_count {q : String} {r : QueryResult}
    (h : executeGremlinFallback q = .ok r) : r.metadata.row_count = r.data.length := by
  unfold executeGremlinFallback at h
  split at h
  · exact Except.noConfusion h
  · injection h with h; subst h; rfl

/-- The Cypher sample-data fallback satisfies the row-count invariant. -/
theorem executeCypherFallback_ok_row_count {q : String} {r : QueryResult}
    (h : executeCypherFallback q = .ok r) : r.metadata.row_count = r.data.length := by
  unfold executeCypherFallback at h
  split at h
  · exact Except.noConfusion h
  · injection h with h; subst h; rfl

/-- C7: every `QueryResult` returned successfully by `executeGremlin` or
`executeCypher` has `metadata.row_count` equal to the length of `data` —
on the real execution path because `row_count` is set to `result.length`, and
on the sample-data path because the sample envelopes carry
`row_count: 2` with two data items. -/
theorem c7_row_count :
    (∀ (s : ServiceState) (env : GremlinRunEnv) (q : String) (r : QueryResult),
       (executeGremlin s env q).1 = .ok r → r.metadata.row_count = r.data.length) ∧
    (∀ (s : ServiceState) (env : CypherRunEnv) (q : String) (r : QueryResult),
       (executeCypher s env q).1 = .ok r → r.metadata.row_count = r.data.length) := by
  constructor
  · intro s env q r h
    unfold executeGremlin at h
    split at h
    · exact executeGremlinFallback_ok_row_count h
    · split at h
      · exact wrapGremlinResult_ok_row_count h
      · dsimp only at h
        split at h
        · exact wrapGremlinResult_ok_row_count h
        · exact Except.noConfusion h
  · intro s env q r h
    unfold executeCypher at h
    split at h
    · exact executeCypherFallback_ok_row_count h
    · split at h
      · exact wrapCypherResult_ok_row_count h
      · dsimp only at h
        split at h
        · exact wrapCypherResult_ok_row_count h
        · exact Except.noConfusion h

theorem c7_row_count_witness :
    (executeGremlin ⟨⟨false, false, none⟩, ⟨false, none, none⟩, none⟩
        ⟨.error "down", ⟨fun _ => .ok [], fun _ => .ok [], fun _ => .ok []⟩, true, 0⟩
        "test").1 = .ok sampleGremlinResult ∧
    sampleGremlinResult.metadata.row_count = sampleGremlinResult.data.length :=
  ⟨rfl, c7_row_count.1 ⟨⟨false, false, none⟩, ⟨false, none, none⟩, none⟩
    ⟨.error "down", ⟨fun _ => .ok [], fun _ => .ok [], fun _ => .ok []⟩, true, 0⟩
    "test" sampleGremlinResult rfl⟩

/-- C8 counterexample: the claim says every query issued while the relevant
connection is disconnected triggers exactly one reconnect attempt.  A query
containing "test" issued while fully disconnected triggers no reconnect at
all and succeeds with the synthetic sample data instead of failing with the
not-connected error. -/
theorem c8_counterexample :
    executeGremlin ⟨⟨false, false, none⟩, ⟨false, none, none⟩, none⟩
        ⟨.error "refused", ⟨fun _ => .ok [], fun _ => .ok [], fun _ => .ok []⟩, true, 0⟩
        "test" =
      (.ok sampleGremlinResult, ⟨⟨false, false, none⟩, ⟨false, none, none⟩, none⟩, []) := rfl

/-- C8 (amended): for every query whose text does not contain "test" issued
while the relevant connection is disconnected, `executeGremlin`/
`executeCypher` attempt exactly one reconnect; if that reconnect fails they
fail with the not-connected error whose message carries the aggregated
connection error string when one exists, and no query is delegated to the
backend (the call trace holds the single connect attempt only). -/
theorem c8_not_connected_amended :
    (∀ (s : ServiceState) (env : GremlinRunEnv) (q m : String),
       containsSubstr q "test" = false → s.gremlin.connected = false →
       env.connectOutcome = .error m →
       (executeGremlin s env q).2.2 = [.gremlinConnectAttempt] ∧
       (∀ e, (executeGremlin s env q).2.1.connectionError = some e →
         (executeGremlin s env q).1 =
           .error ("Cannot execute Gremlin query: Not connected to Gremlin endpoint. " ++ e))) ∧
    (∀ (s : ServiceState) (env : CypherRunEnv) (q m : String),
       containsSubstr q "test" = false → s.neo4j.connected = false →
       env.connectOutcome = .error m →
       (executeCypher s env q).2.2 = [.neo4jConnectAttempt] ∧
       (∀ e, (executeCypher s env q).2.1.connectionError = some e →
         (executeCypher s env q).1 =
           .error ("Cannot execute Cypher query: Not connected to Neo4j endpoint. " ++ e))) := by
  constructor
  · intro s env q m ht hgc hco
    refine ⟨?_, ?_⟩
    · simp only [executeGremlin, ht, Bool.false_eq_true, if_false, hgc, hco,
        GremlinClient.connect]
    · intro e he
      simp only [executeGremlin, ht, Bool.false_eq_true, if_false, hgc, hco,
        GremlinClient.connect] at he ⊢
      rw [he, jsOrEmpty_some]
  · intro s env q m ht hnc hco
    refine ⟨?_, ?_⟩
    · simp only [executeCypher, ht, Bool.false_eq_true, if_false, hnc, hco,
        Neo4jClient.connect]
    · intro e he
      simp only [executeCypher, ht, Bool.false_eq_true, if_false, hnc, hco,
        Neo4jClient.connect] at he ⊢
      rw [he, jsOrEmpty_some]

theorem c8_not_connected_amended_witness :
    containsSubstr "g.V()" "test" = false ∧
    (executeGremlin ⟨⟨false, false, none⟩, ⟨false, none, none⟩, none⟩
        ⟨.error "refused", ⟨fun _ => .ok [], fun _ => .ok [], fun _ => .ok []⟩, true, 0⟩
        "g.V()").2.2 = [.gremlinConnectAttempt] ∧
    (executeGremlin ⟨⟨false, false, none⟩, ⟨false, none, none⟩, none⟩
        ⟨.error "refused", ⟨fun _ => .ok [], fun _ => .ok [], fun _ => .ok []⟩, true, 0⟩
        "g.V()").1 =
      .error "Cannot execute Gremlin query: Not connected to Gremlin endpoint. Gremlin: refused" := by
  have h := c8_not_connected_amended.1
    ⟨⟨false, false, none⟩, ⟨false, none, none⟩, none⟩
    ⟨.error "refused", ⟨fun _ => .ok [], fun _ => .ok [], fun _ => .ok []⟩, true, 0⟩
    "g.V()" "refused" (by decide) rfl rfl
  exact ⟨by decide, h.1, h.2 "Gremlin: refused" rfl⟩

/-- C6: `getConnectionStatus()` projects `connected` as the disjunction of
the two per-protocol connected flags, reports the aggregated error string in
the `"Neo4j: <e1> | Gremlin: <e2>"` format (single-protocol prefix when only
one error is present, null when none), and always reports
`fallbackMode = false`.  The hypothesis states that the stored aggregate is
up to date, which holds at every quiescent state because each client
`connect` call in the service is immediately followed by
`updateConnectionError`. -/
theorem c6_connection_status (s : ServiceState)
    (h : s.connectionError =
      aggregateError s.neo4j.connectionError s.gremlin.connectionError) :
    (getConnectionStatus s).connected = (s.neo4j.connected || s.gremlin.connected) ∧
    (getConnectionStatus s).neo4jConnected = s.neo4j.connected ∧
    (getConnectionStatus s).gremlinConnected = s.gremlin.connected ∧
    (getConnectionStatus s).fallbackMode = false ∧
    (∀ e1 e2, s.neo4j.connectionError = some e1 → s.gremlin.connectionError = some e2 →
       e1 ≠ "" → e2 ≠ "" →
       (getConnectionStatus s).connectionError =
         some ("Neo4j: " ++ e1 ++ " | Gremlin: " ++ e2)) ∧
    (∀ e1, s.neo4j.connectionError = some e1 → s.gremlin.connectionError = none →
       e1 ≠ "" →
       (getConnectionStatus s).connectionError = some ("Neo4j: " ++ e1)) ∧
    (∀ e2, s.neo4j.connectionError = none → s.gremlin.connectionError = some e2 →
       e2 ≠ "" →
       (getConnectionStatus s).connectionError = some ("Gremlin: " ++ e2)) ∧
    (s.neo4j.connectionError = none → s.gremlin.connectionError = none →
       (getConnectionStatus s).connectionError = none) := by
  refine ⟨rfl, rfl, rfl, rfl, ?_, ?_, ?_, ?_⟩
  · intro e1 e2 h1 h2 hn1 hn2
    show s.connectionError = _
    rw [h, h1, h2]
    simp [aggregateError, data_isEmpty_eq_false hn1, data_isEmpty_eq_false hn2]
  · intro e1 h1 h2 hn1
    show s.connectionError = _
    rw [h, h1, h2]
    simp [aggregateError, data_isEmpty_eq_false hn1]
  · intro e2 h1 h2 hn2
    show s.connectionError = _
    rw [h, h1, h2]
    simp [aggregateError, data_isEmpty_eq_false hn2]
  · intro h1 h2
    show s.connectionError = _
    rw [h, h1, h2]
    rfl

theorem c6_connection_status_witness :
    (⟨⟨true, true, none⟩, ⟨false, none, some "X"⟩, some "Gremlin: X"⟩ : ServiceState).connectionError =
      aggregateError (none : Option String) (some "X") ∧
    (getConnectionStatus ⟨⟨true, true, none⟩, ⟨false, none, some "X"⟩, some "Gremlin: X"⟩).connected = true ∧
    (getConnectionStatus ⟨⟨true, true, none⟩, ⟨false, none, some "X"⟩, some "Gremlin: X"⟩).fallbackMode = false ∧
    (getConnectionStatus ⟨⟨true, true, none⟩, ⟨false, none, some "X"⟩, some "Gremlin: X"⟩).connectionError =
      some ("Gremlin: " ++ "X") := by
  have h := c6_connection_status
    ⟨⟨true, true, none⟩, ⟨false, none, some "X"⟩, some "Gremlin: X"⟩ rfl
  exact ⟨rfl, h.1, h.2.2.2.1, h.2.2.2.2.2.2.1 "X" rfl rfl (by decide)⟩

/-- C5: `getDataSources()` follows the fixed three-tier fallback in order:
(a) a reachable schema endpoint yields a result tagged
`source = "Schema API"`; (b) on endpoint failure, a reachable declarative
backend (already connected, or reconnected by the single attempt) yields the
degraded envelope with a `nodeCount` field and a `timestamp`; (c) when the
declarative tier is unreachable, a reachable traversal backend yields a
result tagged `source = "Gremlin Database Queries"`; (d) when all three tiers
fail, the call fails with an error carrying the aggregated connection
error. -/
theorem c5_schema_fallback :
    (∀ (s : ServiceState) (env : SchemaEnv) (hr : HttpResp),
       env.schemaResp = .ok hr → hr.ok = true →
       ∃ v, (getDataSources s env).1 = .ok v ∧
         getField v "source" = some (.str "Schema API")) ∧
    (∀ (s : ServiceState) (env : SchemaEnv) (e : String) (r0 : List (String × GValue))
       (rest : List (List (String × GValue))),
       fetchSchemaFromEndpoint env.schemaResp env.schemaUrl env.now = .error e →
       ((s.neo4j.connected = true ∧ s.neo4j.hasDriver = true) ∨
         (s.neo4j.connected = false ∧ env.neo4jConnectOutcome = .ok ())) →
       env.neo4jRecords = .ok (r0 :: rest) →
       ∃ v, (getDataSources s env).1 = .ok v ∧
         (getField v "nodeCount").isSome = true ∧
         getField v "timestamp" = some (.str env.now)) ∧
    (∀ (s : ServiceState) (env : SchemaEnv) (e m : String) (p : SchemaProbes),
       fetchSchemaFromEndpoint env.schemaResp env.schemaUrl env.now = .error e →
       s.neo4j.connected = false → env.neo4jConnectOutcome = .error m →
       ((s.gremlin.connected = true ∧ s.gremlin.client = some .graphHandle) ∨
         (s.gremlin.connected = false ∧ env.gremlinConnectOutcome = .ok .graphHandle)) →
       env.gremlinProbes = .ok p →
       ∃ v, (getDataSources s env).1 = .ok v ∧
         getField v "source" = some (.str "Gremlin Database Queries")) ∧
    (∀ (s : ServiceState) (env : SchemaEnv) (e e1 e2 : String),
       fetchSchemaFromEndpoint env.schemaResp env.schemaUrl env.now = .error e →
       s.neo4j.connected = false → env.neo4jConnectOutcome = .error e1 → e1 ≠ "" →
       s.gremlin.connected = false → env.gremlinConnectOutcome = .error e2 → e2 ≠ "" →
       (getDataSources s env).1 =
         .error ("Cannot fetch schema: Not connected to any endpoint. " ++
           ("Neo4j: " ++ e1 ++ " | Gremlin: " ++ e2))) := by
  refine ⟨?_, ?_, ?_, ?_⟩
  · intro s env hr hresp hok
    simp only [getDataSources, fetchSchemaFromEndpoint, hresp, hok, Bool.not_true,
      Bool.false_eq_true, if_false]
    exact ⟨_, rfl, by simp [getField]⟩
  · intro s env e r0 rest hf hreach hrec
    rcases hreach with ⟨hc, hd⟩ | ⟨hc, hco⟩
    · simp only [getDataSources, hf, hc, if_true, neo4jSchemaTier,
        Neo4jClient.executeQuery, hd, Bool.not_true, Bool.or_self,
        Bool.false_eq_true, if_false, hrec, List.map]
      exact ⟨_, rfl, by simp [getField], by simp [getField]⟩
    · simp only [getDataSources, hf, hc, Bool.false_eq_true, if_false, hco,
        Neo4jClient.connect, if_true, neo4jSchemaTier, Neo4jClient.executeQuery,
        updateConnectionError, Bool.not_true, Bool.or_self, hrec, List.map]
      exact ⟨_, rfl, by simp [getField], by simp [getField]⟩
  · intro s env e m p hf hnc hnco hreach hp
    rcases hreach with ⟨hc, hcl⟩ | ⟨hc, hco⟩
    · simp only [getDataSources, hf, hnc, Bool.false_eq_true, if_false, hnco,
        Neo4jClient.connect, updateConnectionError, hc, if_true,
        gremlinSchemaTier, GremlinClient.getSchemaData, hcl, hp]
      exact ⟨_, rfl, by simp [getField]⟩
    · simp only [getDataSources, hf, hnc, Bool.false_eq_true, if_false, hnco,
        Neo4jClient.connect, updateConnectionError, hc, hco,
        GremlinClient.connect, if_true, gremlinSchemaTier,
        GremlinClient.getSchemaData, hp]
      exact ⟨_, rfl, by simp [getField]⟩
  · intro s env e e1 e2 hf hnc hnco hne1 hgc hgco hne2
    simp only [getDataSources, hf, hnc, Bool.false_eq_true, if_false, hnco,
      Neo4jClient.connect, updateConnectionError, hgc, hgco, GremlinClient.connect]
    rw [jsStringOr_eq_self _ hne2]
    simp only [aggregateError, data_isEmpty_eq_false hne1, data_isEmpty_eq_false hne2,
      Bool.false_eq_true, if_false, jsNullStr]

theorem c5_schema_fallback_witness :
    (⟨.ok ⟨true, 200, .vnull⟩, "http://localhost:8081/schemajson", "t0",
       .error "down", .error "down", .error "down", .error "down", true⟩ : SchemaEnv).schemaResp =
      .ok ⟨true, 200, .vnull⟩ ∧
    (⟨true, 200, .vnull⟩ : HttpResp).ok = true ∧
    ∃ v, (getDataSources ⟨⟨false, false, none⟩, ⟨false, none, none⟩, none⟩
        ⟨.ok ⟨true, 200, .vnull⟩, "http://localhost:8081/schemajson", "t0",
         .error "down", .error "down", .error "down", .error "down", true⟩).1 = .ok v ∧
      getField v "source" = some (.str "Schema API") :=
  ⟨rfl, rfl, c5_schema_fallback.1 ⟨⟨false, false, none⟩, ⟨false, none, none⟩, none⟩
    ⟨.ok ⟨true, 200, .vnull⟩, "http://localhost:8081/schemajson", "t0",
     .error "down", .error "down", .error "down", .error "down", true⟩
    ⟨true, 200, .vnull⟩ rfl rfl⟩

end PuppyGraph
